import Mathlib

/-!
Shallow embedding of the failure-tracking and retry subsystem of the
asmr-downloader utilities package (`utils`): the durable failed-download
ledger, the download executor failure paths, the corruption-marker
validator and the bounded-retry reconciliation loop.

External effects (HTTP transfers, directory creation, the system clock)
are supplied through explicit outcome oracles; the file system touched by
the subsystem (the ledger file `failed-download.txt`, its temporary
snapshot and the destination media files) is explicit state threaded
through each operation.
-/

namespace Asmr

/-- Go `strings.Trim(s, "\r\n")`: drop carriage-return and newline
characters from both ends of the string. -/
def isCRLF (c : Char) : Bool := c == '\r' || c == '\n'

def goTrimCRLF (s : String) : String :=
  ⟨((s.data.dropWhile isCRLF).reverse.dropWhile isCRLF).reverse⟩

/-- Split a character list at every occurrence of `sep`, keeping empty
pieces, as Go `strings.Split` does for a one-character separator. -/
def goSplitList (sep : Char) : List Char → List (List Char)
  | [] => [[]]
  | c :: cs =>
    let r := goSplitList sep cs
    if c == sep then [] :: r
    else
      match r with
      | [] => [[c]]
      | h :: t => (c :: h) :: t

/-- Go `strings.Split(s, sep)` for a one-character separator. -/
def goSplit (s : String) (sep : Char) : List String :=
  (goSplitList sep s.data).map (fun l => ⟨l⟩)

/-- Drop one trailing carriage return, as `bufio.Reader.ReadLine` does
when it strips a `\r\n` terminator. -/
def stripCR (s : String) : String :=
  match s.data.reverse with
  | '\r' :: rest => ⟨rest.reverse⟩
  | _ => s

/-- The sequence of lines returned by the `br.ReadLine()` loop over a file
with the given content: pieces split at `\n`, each terminated line with its
terminator (and a preceding `\r`) stripped; a final unterminated piece is
returned as is, and reading stops at end of file. -/
def goReadLines (content : String) : List String :=
  if content.data = [] then []
  else
    match (goSplit content '\n').reverse with
    | [] => []
    | lastPiece :: revInit =>
      (revInit.reverse.map stripCR) ++ (if lastPiece = "" then [] else [lastPiece])

/-- The `resultLine` list built by both `FixBrokenDownloadFile` and
`CheckIfNeedFixBrokenDownloadFile`: every read line whose
`strings.Trim(line, "\r\n")` is non-empty, kept untrimmed. -/
def pendingLines (content : String) : List String :=
  (goReadLines content).filter (fun l => 0 < (goTrimCRLF l).data.length)

/-- The file system visible to the subsystem: the content of the ledger
file `failed-download.txt`, the content of its temporary snapshot
`failed-download.txt.tmp` when that file exists, and the destination media
files, keyed by path. -/
structure FS where
  ledger : String
  temp : Option String
  files : List (String × String)
deriving DecidableEq

def findContent : List (String × String) → String → Option String
  | [], _ => none
  | (q, c) :: rest, p => if p = q then some c else findContent rest p

def removeEntry : List (String × String) → String → List (String × String)
  | [], _ => []
  | (q, c) :: rest, p =>
    if p = q then removeEntry rest p else (q, c) :: removeEntry rest p

/-- Content of the file at path `p`, when it exists (`os.ReadFile`). -/
def FS.read (fs : FS) (p : String) : Option String := findContent fs.files p

/-- Create or overwrite the file at path `p` with content `c`. -/
def FS.write (fs : FS) (p c : String) : FS :=
  { fs with files := (p, c) :: removeEntry fs.files p }

/-- Delete the file at path `p` (`os.Remove`). -/
def FS.remove (fs : FS) (p : String) : FS :=
  { fs with files := removeEntry fs.files p }

/-- Outcome oracle for one `DownloadFile` call, naming the point of the Go
function where it returns: request construction failure, transport failure
on `client.Do`, `os.Create` failure (all three leave the file system
untouched), an `io.Copy` failure after the destination was created (the
partially copied content remains on disk), or success with the fetched
content. -/
inductive DLOutcome
  | reqErr (msg : String)
  | doErr (msg : String)
  | createErr (msg : String)
  | copyErr (partialContent : String) (msg : String)
  | ok (content : String)
deriving DecidableEq

/-- Go `DownloadFile(storePath, fileUrl)`: plain GET streamed to disk;
returns the error of the failing step, and leaves the partially copied
content at `storePath` when `io.Copy` fails after `os.Create` succeeded. -/
def DownloadFile (storePath fileUrl : String) (o : DLOutcome) (fs : FS) :
    Option String × FS :=
  match o with
  | .reqErr m => (some m, fs)
  | .doErr m => (some m, fs)
  | .createErr m => (some m, fs)
  | .copyErr p m => (some m, fs.write storePath p)
  | .ok c => (none, fs.write storePath c)

/-- The Cloudflare block-page body that marks a corrupt download. -/
def marker : String := "error code: 1015"

/-- The tail of `NewFixFileDownloader` from its `DownloadFile` call on: on
a download error, append a fresh `time|storePath|url` record to
`resultLines`; on success, re-read the file and, when its content is
exactly the corruption marker, sleep and append a fresh record; otherwise
return `resultLines` unchanged. Every path returns a nil error. -/
def fixRetryDownload (url storePath : String) (resultLines : List String)
    (dl : DLOutcome) (now : String) (fs : FS) :
    List String × Option String × FS :=
  match DownloadFile storePath url dl fs with
  | (some _, fs1) =>
    (resultLines ++ [now ++ "|" ++ storePath ++ "|" ++ url], none, fs1)
  | (none, fs1) =>
    match fs1.read storePath with
    | some c =>
      if c = marker then
        (resultLines ++ [now ++ "|" ++ storePath ++ "|" ++ url], none, fs1)
      else (resultLines, none, fs1)
    | none => (resultLines, none, fs1)

/-- Go `NewFixFileDownloader(url, storePath, resultLines)`: when the
destination file does not exist and creating its parent directory fails,
return `(nil, nil)`; when the destination exists with the corruption
marker as content, remove it and re-download; when it exists with any
other content, skip (already downloaded) and return `resultLines`
unchanged; otherwise download via `DownloadFile`. `mkdirOk` is the outcome
of `os.MkdirAll` and `now` the value of `GetCurrentDateTime()`. -/
def NewFixFileDownloader (url storePath : String) (resultLines : List String)
    (mkdirOk : Bool) (dl : DLOutcome) (now : String) (fs : FS) :
    List String × Option String × FS :=
  let fileExists := (fs.read storePath).isSome
  if !fileExists && !mkdirOk then ([], none, fs)
  else
    match fs.read storePath with
    | some content =>
      if content = marker then
        fixRetryDownload url storePath resultLines dl now (fs.remove storePath)
      else (resultLines, none, fs)
    | none => fixRetryDownload url storePath resultLines dl now fs

/-- Outcome oracle for one `got.New().Download` call: success with the
fetched content, a failure whose message contains `"Content-Length"`
(which triggers the plain-GET fallback), or any other failure; on failure
the library may have left partial content at the destination. -/
inductive GotOutcome
  | ok (content : String)
  | errContentLength (partialContent : Option String) (msg : String)
  | errOther (partialContent : Option String) (msg : String)
deriving DecidableEq

def writeOpt (fs : FS) (p : String) : Option String → FS
  | none => fs
  | some c => fs.write p c

def joinPath (path filename : String) : String := path ++ "/" ++ filename

/-- The download task closure returned by Go
`NewFileDownloader(url, path, filename)`: try `got` first; on a
`Content-Length` error fall back to `DownloadFile`; on a final failure
append a `time|storePath|url\n` record to the ledger file, notify, and
remove the destination file. The closure returns `nil` on every path. -/
def NewFileDownloader (url path filename : String) (got : GotOutcome)
    (dl : DLOutcome) (now : String) (fs : FS) : Option String × FS :=
  let storePath := joinPath path filename
  match got with
  | .ok c => (none, fs.write storePath c)
  | .errContentLength p _ =>
    let fs1 := writeOpt fs storePath p
    match DownloadFile storePath url dl fs1 with
    | (none, fs2) => (none, fs2)
    | (some _, fs2) =>
      let fs3 := { fs2 with
        ledger := fs2.ledger ++ now ++ "|" ++ storePath ++ "|" ++ url ++ "\n" }
      (none, fs3.remove storePath)
  | .errOther p _ =>
    let fs1 := writeOpt fs storePath p
    let fs2 := { fs1 with
      ledger := fs1.ledger ++ now ++ "|" ++ storePath ++ "|" ++ url ++ "\n" }
    (none, fs2.remove storePath)

/-- External outcomes of one `NewFixFileDownloader` call made from the
reconciliation loop: the `os.MkdirAll` outcome, the `DownloadFile`
outcome, and the clock value. -/
structure CallOracle where
  mkdirOk : Bool
  dl : DLOutcome
  now : String

/-- External outcomes of one `FixBrokenDownloadFile` pass: the snapshot
copy, the temp-file open, the temp-file deletion and the ledger
truncation, plus a `CallOracle` for each (entry index, attempt number). -/
structure FixOracle where
  copyOk : Bool
  openOk : Bool
  removeTempOk : Bool
  truncateOk : Bool
  call : Nat → Nat → CallOracle

/-- The inner retry loop of `FixBrokenDownloadFile` for the entry at
`index` with ledger line `line`: up to `fuel` further attempts starting at
attempt number `i`. Each attempt splits the line at every `'|'` and
accesses `fileInfos[2]` and `fileInfos[1]`; on a line with fewer than
three fields this Go index expression panics, modelled by `Except.error`
carrying the accumulator and file system at the panic. A call that leaves
the shared accumulator empty records the entry as resolved
(`lastSuccessIndex = index`) and breaks. -/
def fixInner (orc : FixOracle) (index : Nat) (line : String) :
    Nat → Nat → Int → List String → FS →
    Except (List String × FS) (Int × List String × FS)
  | 0, _, lastSuccess, container, fs => .ok (lastSuccess, container, fs)
  | fuel + 1, i, lastSuccess, container, fs =>
    if (index : Int) = lastSuccess then .ok (lastSuccess, container, fs)
    else
      let fileInfos := goSplit line '|'
      if fileInfos.length < 3 then .error (container, fs)
      else
        let co := orc.call index i
        let r := NewFixFileDownloader (fileInfos.getD 2 "") (fileInfos.getD 1 "")
          container co.mkdirOk co.dl co.now fs
        if r.1.length ≤ 0 then .ok ((index : Int), r.1, r.2.2)
        else fixInner orc index line fuel (i + 1) lastSuccess r.1 r.2.2

/-- The outer loop of `FixBrokenDownloadFile` over the parsed ledger
lines, threading `lastSuccessIndex`, the shared failure accumulator and
the file system. -/
def fixOuter (orc : FixOracle) (maxRetry : Nat) :
    List String → Nat → Int → List String → FS →
    Except (List String × FS) (List String × FS)
  | [], _, _, container, fs => .ok (container, fs)
  | line :: rest, index, lastSuccess, container, fs =>
    match fixInner orc index line maxRetry 0 lastSuccess container fs with
    | .error e => .error e
    | .ok (ls, c, f) => fixOuter orc maxRetry rest (index + 1) ls c f

/-- How a `FixBrokenDownloadFile` pass ended: an early return on snapshot
copy failure, temp-file open failure, a Go runtime panic while splitting a
ledger line, temp-file deletion failure, ledger truncation failure, or
normal completion. -/
inductive PassOutcome
  | copyFailed
  | openFailed
  | panicked
  | removeTempFailed
  | truncateFailed
  | completed
deriving DecidableEq

/-- Result of one reconciliation pass: how it ended, the final value of
the local `resultContainer` accumulator, and the final file system. -/
structure PassResult where
  outcome : PassOutcome
  container : List String
  fs : FS
deriving DecidableEq

/-- Go `FixBrokenDownloadFile(maxRetry)`: snapshot the ledger to the temp
file (abort on failure), open and parse the snapshot into non-empty
lines, replay each line through `NewFixFileDownloader` up to `maxRetry`
times, then delete the temp file (abort on failure, before any
truncation) and truncate the live ledger to empty. The final
`resultContainer` is not written anywhere. -/
def FixBrokenDownloadFile (maxRetry : Nat) (orc : FixOracle) (fs : FS) :
    PassResult :=
  if !orc.copyOk then ⟨.copyFailed, [], fs⟩
  else
    let fs1 : FS := { fs with temp := some fs.ledger }
    if !orc.openOk then ⟨.openFailed, [], fs1⟩
    else
      let resultLine := pendingLines fs.ledger
      match fixOuter orc maxRetry resultLine 0 (-1) [] fs1 with
      | .error (c, fse) => ⟨.panicked, c, fse⟩
      | .ok (container, fs2) =>
        if !orc.removeTempOk then ⟨.removeTempFailed, container, fs2⟩
        else
          let fs3 : FS := { fs2 with temp := none }
          if !orc.truncateOk then ⟨.truncateFailed, container, fs3⟩
          else ⟨.completed, container, { fs3 with ledger := "" }⟩

/-- The file system at the point where the inner retry loop stopped,
whether it returned normally or panicked. -/
def exceptFS : Except (List String × FS) (Int × List String × FS) → FS
  | .error (_, f) => f
  | .ok (_, _, f) => f

/-- The file system at the point where the outer replay loop stopped,
whether it returned normally or panicked. -/
def exceptFS2 : Except (List String × FS) (List String × FS) → FS
  | .error (_, f) => f
  | .ok (_, f) => f

/-- Go `CheckIfNeedFixBrokenDownloadFile()`: open the ledger read-only,
collect its non-empty lines, and report whether any exist; the file system
is returned unchanged. -/
def CheckIfNeedFixBrokenDownloadFile (fs : FS) : Bool × FS :=
  (decide ((pendingLines fs.ledger).length ≠ 0), fs)

/-! ## Helper lemmas -/

lemma string_ne_empty_iff (s : String) : s ≠ "" ↔ 0 < s.data.length := by
  constructor
  · intro h
    cases hd : s.data with
    | nil => exact absurd (by cases s; simp at hd; rw [hd]) h
    | cons a t => simp
  · intro h he; rw [he] at h; simp at h

/-- A retry-download step never touches the ledger file or its snapshot. -/
lemma fixRetryDownload_preserves (url storePath : String) (rl : List String)
    (dl : DLOutcome) (now : String) (fs : FS) :
    (fixRetryDownload url storePath rl dl now fs).2.2.ledger = fs.ledger ∧
    (fixRetryDownload url storePath rl dl now fs).2.2.temp = fs.temp := by
  cases dl <;>
    simp [fixRetryDownload, DownloadFile, FS.write, FS.read, findContent] <;>
    split <;> simp [FS.write]

/-- A `NewFixFileDownloader` call never touches the ledger file or its
snapshot: it records failures only in its returned accumulator. -/
lemma NewFixFileDownloader_preserves (url storePath : String) (rl : List String)
    (mk : Bool) (dl : DLOutcome) (now : String) (fs : FS) :
    (NewFixFileDownloader url storePath rl mk dl now fs).2.2.ledger = fs.ledger ∧
    (NewFixFileDownloader url storePath rl mk dl now fs).2.2.temp = fs.temp := by
  have hf := fixRetryDownload_preserves url storePath rl dl now fs
  have hfr := fixRetryDownload_preserves url storePath rl dl now (fs.remove storePath)
  unfold NewFixFileDownloader
  cases hr : fs.read storePath with
  | none =>
    cases mk with
    | false => simp [hr]
    | true => simpa [hr] using hf
  | some c =>
    by_cases hc : c = marker
    · simpa [hr, hc, FS.remove] using hfr
    · simp [hr, hc]

/-- The inner retry loop never touches the ledger file or its snapshot,
whether it returns normally or panics. -/
lemma fixInner_preserves (orc : FixOracle) (index : Nat) (line : String) (fuel : Nat) :
    ∀ (i : Nat) (ls : Int) (container : List String) (fs : FS),
      (exceptFS (fixInner orc index line fuel i ls container fs)).ledger = fs.ledger ∧
      (exceptFS (fixInner orc index line fuel i ls container fs)).temp = fs.temp := by
  induction fuel with
  | zero => intro i ls c fs; exact ⟨rfl, rfl⟩
  | succ n ih =>
    intro i ls c fs
    simp only [fixInner]
    split
    · exact ⟨rfl, rfl⟩
    split
    · exact ⟨rfl, rfl⟩
    split
    · exact ⟨(NewFixFileDownloader_preserves _ _ _ _ _ _ _).1,
             (NewFixFileDownloader_preserves _ _ _ _ _ _ _).2⟩
    · have h1 := NewFixFileDownloader_preserves ((goSplit line '|').getD 2 "")
        ((goSplit line '|').getD 1 "") c (orc.call index i).mkdirOk (orc.call index i).dl
        (orc.call index i).now fs
      have h2 := ih (i + 1) ls
        (NewFixFileDownloader ((goSplit line '|').getD 2 "") ((goSplit line '|').getD 1 "") c
          (orc.call index i).mkdirOk (orc.call index i).dl (orc.call index i).now fs).1
        (NewFixFileDownloader ((goSplit line '|').getD 2 "") ((goSplit line '|').getD 1 "") c
          (orc.call index i).mkdirOk (orc.call index i).dl (orc.call index i).now fs).2.2
      exact ⟨h2.1.trans h1.1, h2.2.trans h1.2⟩

/-- The outer replay loop never touches the ledger file or its snapshot,
whether it returns normally or panics. -/
lemma fixOuter_preserves (orc : FixOracle) (maxRetry : Nat) :
    ∀ (lines : List String) (index : Nat) (ls : Int) (container : List String) (fs : FS),
      (exceptFS2 (fixOuter orc maxRetry lines index ls container fs)).ledger = fs.ledger ∧
      (exceptFS2 (fixOuter orc maxRetry lines index ls container fs)).temp = fs.temp := by
  intro lines
  induction lines with
  | nil => intro index ls c fs; exact ⟨rfl, rfl⟩
  | cons line rest ih =>
    intro index ls c fs
    simp only [fixOuter]
    split
    next e heq =>
      have h1 := fixInner_preserves orc index line maxRetry 0 ls c fs
      rw [heq] at h1
      exact h1
    next l2 c2 f2 heq =>
      have h1 := fixInner_preserves orc index line maxRetry 0 ls c fs
      rw [heq] at h1
      have h2 := ih (index + 1) l2 c2 f2
      exact ⟨h2.1.trans h1.1, h2.2.trans h1.2⟩

/-! ## Concrete inputs used by the claim theorems -/

/-- A ledger holding one well-formed entry. -/
def fsOneEntry : FS := ⟨"2024-01-01 00:00:00|/out/a.mp3|http://x/a.mp3\n", none, []⟩

/-- A pass where the ledger infrastructure works, every retry download
fails with a transport error, and the clock is fixed. -/
def alwaysFailOracle : FixOracle :=
  ⟨true, true, true, true,
   fun _ _ => ⟨true, .doErr "connection refused", "2024-02-02 12:00:00"⟩⟩

/-- A ledger whose first line is malformed (no `|` separator) and whose
second line is well formed. -/
def fsMalformed : FS :=
  ⟨"garbage\n2024-01-01 00:00:00|/out/c.mp3|http://x/c.mp3\n", none, []⟩

/-- A destination file already holding the Cloudflare corruption marker. -/
def fsMarkerFile : FS := ⟨"", none, [("/p.mp3", "error code: 1015")]⟩

/-- A destination file already holding ordinary content. -/
def fsGoodFile : FS := ⟨"", none, [("/p.mp3", "DATA")]⟩

/-- The two-entry ledger of the concrete scenario in the spec:
`a.mp3` first, `b.mp3` second. -/
def fsScenario : FS :=
  ⟨"2024-01-01 00:00:00|/out/a.mp3|http://x/a.mp3\n2024-01-01 00:00:00|/out/b.mp3|http://x/b.mp3\n",
   none, []⟩

/-- Download behaviour of the concrete scenario: `a.mp3` (entry 0) fails
on attempts 0 and 1 and succeeds on attempt 2; `b.mp3` (entry 1) fails on
every attempt. -/
def scenarioOracle : FixOracle :=
  ⟨true, true, true, true, fun index i =>
    if index == 0 && i == 2 then ⟨true, .ok "audio-a", "2024-02-02 12:00:00"⟩
    else ⟨true, .doErr "connection refused", "2024-02-02 12:00:00"⟩⟩

/-- A pass whose snapshot copy and temp-file deletion both fail. -/
def orcAbort : FixOracle :=
  ⟨false, true, false, true, fun _ _ => ⟨true, .doErr "e", "T"⟩⟩

/-- A pass where every `os.MkdirAll` call fails. -/
def orcMkdirFail : FixOracle :=
  ⟨true, true, true, true, fun _ _ => ⟨false, .doErr "e", "T"⟩⟩

/-- An empty file system with an empty ledger. -/
def fsEmpty : FS := ⟨"", none, []⟩

/-! ## Claim theorems -/

/-- C1: the code violates the claim. A reconciliation pass that reaches
the commit step with a non-empty failure accumulator does NOT write the
accumulator back to the truncated ledger: on a one-entry ledger whose
retry fails, the pass completes with one surviving failure record in the
accumulator while the ledger file on disk ends the pass empty, so the
surviving failure is lost. -/
theorem FixBrokenDownloadFile_discards_failures :
    FixBrokenDownloadFile 1 alwaysFailOracle fsOneEntry =
      ⟨.completed, ["2024-02-02 12:00:00|/out/a.mp3|http://x/a.mp3"], ⟨"", none, []⟩⟩ ∧
    (FixBrokenDownloadFile 1 alwaysFailOracle fsOneEntry).container ≠ [] ∧
    (FixBrokenDownloadFile 1 alwaysFailOracle fsOneEntry).fs.ledger = "" := by
  exact ⟨by decide, by decide, by decide⟩

/-- C2: the code violates the claim. On a ledger with one always-failing
entry and `maxRetry = 2`, the pass's failure set holds one record per
failed retry attempt — two records for the single original URL, not one —
and the on-disk ledger ends the pass empty rather than holding the
original count of entries. -/
theorem FixBrokenDownloadFile_duplicates_per_retry :
    (pendingLines fsOneEntry.ledger).length = 1 ∧
    FixBrokenDownloadFile 2 alwaysFailOracle fsOneEntry =
      ⟨.completed,
       ["2024-02-02 12:00:00|/out/a.mp3|http://x/a.mp3",
        "2024-02-02 12:00:00|/out/a.mp3|http://x/a.mp3"], ⟨"", none, []⟩⟩ ∧
    (FixBrokenDownloadFile 2 alwaysFailOracle fsOneEntry).container.length = 2 ∧
    (FixBrokenDownloadFile 2 alwaysFailOracle fsOneEntry).fs.ledger = "" := by
  exact ⟨by decide, by decide, by decide, by decide⟩

/-- C3: if the snapshot copy fails the pass aborts with the whole file
system unchanged, and whenever the temp-snapshot deletion fails the pass
never reaches the truncation step and the live ledger keeps its original
content. -/
theorem FixBrokenDownloadFile_abort_preserves_ledger (maxRetry : Nat)
    (orc : FixOracle) (fs : FS) :
    (orc.copyOk = false →
      FixBrokenDownloadFile maxRetry orc fs = ⟨.copyFailed, [], fs⟩) ∧
    (orc.removeTempOk = false →
      (FixBrokenDownloadFile maxRetry orc fs).outcome ≠ .completed ∧
      (FixBrokenDownloadFile maxRetry orc fs).fs.ledger = fs.ledger) := by
  constructor
  · intro h
    simp [FixBrokenDownloadFile, h]
  · intro h
    unfold FixBrokenDownloadFile
    cases hc : orc.copyOk with
    | false => exact ⟨by simp, by simp⟩
    | true =>
      cases ho : orc.openOk with
      | false => exact ⟨by simp, by simp⟩
      | true =>
        simp only [Bool.not_true, Bool.false_eq_true, if_false]
        split
        next c fse heq =>
          have h1 := fixOuter_preserves orc maxRetry (pendingLines fs.ledger) 0 (-1) []
            { fs with temp := some fs.ledger }
          rw [heq] at h1
          exact ⟨by simp, h1.1⟩
        next container fs2 heq =>
          have h1 := fixOuter_preserves orc maxRetry (pendingLines fs.ledger) 0 (-1) []
            { fs with temp := some fs.ledger }
          rw [heq] at h1
          simp only [h, Bool.not_false, if_true]
          exact ⟨by simp, h1.1⟩

/-- C3 witness: the abort guarantees at a concrete pass whose snapshot
copy and temp-file deletion both fail. -/
theorem FixBrokenDownloadFile_abort_preserves_ledger_witness :
    (FixBrokenDownloadFile 1 orcAbort fsOneEntry = ⟨.copyFailed, [], fsOneEntry⟩) ∧
    ((FixBrokenDownloadFile 1 orcAbort fsOneEntry).outcome ≠ .completed ∧
     (FixBrokenDownloadFile 1 orcAbort fsOneEntry).fs.ledger = fsOneEntry.ledger) :=
  ⟨(FixBrokenDownloadFile_abort_preserves_ledger 1 orcAbort fsOneEntry).1 rfl,
   (FixBrokenDownloadFile_abort_preserves_ledger 1 orcAbort fsOneEntry).2 rfl⟩

/-- C4: the code violates the claim on the retry path. When a retry's
`DownloadFile` creates the destination and then fails mid-copy,
`NewFixFileDownloader` records the failure but leaves the partial content
on disk; a subsequent retry then reads that partial content, does not
match the corruption marker, and skips the entry as already downloaded —
even though a successful download was available. -/
theorem NewFixFileDownloader_leaves_partial_file :
    NewFixFileDownloader "http://x/a.mp3" "/out/a.mp3" [] true
      (.copyErr "PARTIAL" "io copy error") "2024-02-02 12:00:00" ⟨"", none, []⟩ =
      (["2024-02-02 12:00:00|/out/a.mp3|http://x/a.mp3"], none,
        ⟨"", none, [("/out/a.mp3", "PARTIAL")]⟩) ∧
    FS.read ⟨"", none, [("/out/a.mp3", "PARTIAL")]⟩ "/out/a.mp3" = some "PARTIAL" ∧
    NewFixFileDownloader "http://x/a.mp3" "/out/a.mp3"
      ["2024-02-02 12:00:00|/out/a.mp3|http://x/a.mp3"] true
      (.ok "real-audio") "2024-02-03 12:00:00" ⟨"", none, [("/out/a.mp3", "PARTIAL")]⟩ =
      (["2024-02-02 12:00:00|/out/a.mp3|http://x/a.mp3"], none,
        ⟨"", none, [("/out/a.mp3", "PARTIAL")]⟩) := by
  exact ⟨by decide, by decide, by decide⟩

/-- C5: the code violates the claim. On a ledger whose first line has no
`|` separator, the replay loop's `fileInfos[2]` access panics: the pass
stops with outcome `panicked`, the well-formed second line is never
processed, and the temp snapshot is left on disk. -/
theorem FixBrokenDownloadFile_panics_on_malformed_line :
    pendingLines fsMalformed.ledger =
      ["garbage", "2024-01-01 00:00:00|/out/c.mp3|http://x/c.mp3"] ∧
    FixBrokenDownloadFile 3 alwaysFailOracle fsMalformed =
      ⟨.panicked, [], ⟨fsMalformed.ledger, some fsMalformed.ledger, []⟩⟩ := by
  exact ⟨by decide, by decide⟩

/-- C6: when the destination file exists with exactly the marker content,
`NewFixFileDownloader` removes it and proceeds to a fresh download; with
any other content it is a no-op returning `resultLines` unchanged with the
file system untouched, whatever the download oracle would have done. -/
theorem NewFixFileDownloader_existing_file_policy (url storePath : String)
    (resultLines : List String) (mkdirOk : Bool) (dl : DLOutcome) (now : String)
    (fs : FS) (c : String) (h : fs.read storePath = some c) :
    (c = marker →
      NewFixFileDownloader url storePath resultLines mkdirOk dl now fs =
        fixRetryDownload url storePath resultLines dl now (fs.remove storePath)) ∧
    (c ≠ marker →
      NewFixFileDownloader url storePath resultLines mkdirOk dl now fs =
        (resultLines, none, fs)) := by
  constructor
  · intro hc
    simp [NewFixFileDownloader, h, hc]
  · intro hc
    simp [NewFixFileDownloader, h, hc]

/-- C6 witness: the two policies at concrete destination files holding the
marker and ordinary content respectively. -/
theorem NewFixFileDownloader_existing_file_policy_witness :
    (NewFixFileDownloader "u" "/p.mp3" [] true (.doErr "e") "T" fsMarkerFile =
      fixRetryDownload "u" "/p.mp3" [] (.doErr "e") "T" (fsMarkerFile.remove "/p.mp3")) ∧
    (NewFixFileDownloader "u" "/p.mp3" [] true (.doErr "e") "T" fsGoodFile =
      ([], none, fsGoodFile)) :=
  ⟨(NewFixFileDownloader_existing_file_policy "u" "/p.mp3" [] true (.doErr "e") "T"
      fsMarkerFile "error code: 1015" (by decide)).1 (by decide),
   (NewFixFileDownloader_existing_file_policy "u" "/p.mp3" [] true (.doErr "e") "T"
      fsGoodFile "DATA" (by decide)).2 (by decide)⟩

/-- C7: the code violates the claim. In the spec's two-entry scenario
(`a.mp3` fails twice then succeeds on the third attempt, `b.mp3` fails all
three attempts, `maxRetry = 3`) the resolve check tests emptiness of the
shared accumulator, which already holds `a.mp3`'s two failure records, so
`a.mp3` is never marked resolved: the final failure set keeps two records
for `a.mp3` alongside three duplicate records for `b.mp3`, and the ledger
is truncated to empty rather than holding one `b.mp3` entry. -/
theorem FixBrokenDownloadFile_scenario_keeps_resolved_records :
    FixBrokenDownloadFile 3 scenarioOracle fsScenario =
      ⟨.completed,
       ["2024-02-02 12:00:00|/out/a.mp3|http://x/a.mp3",
        "2024-02-02 12:00:00|/out/a.mp3|http://x/a.mp3",
        "2024-02-02 12:00:00|/out/b.mp3|http://x/b.mp3",
        "2024-02-02 12:00:00|/out/b.mp3|http://x/b.mp3",
        "2024-02-02 12:00:00|/out/b.mp3|http://x/b.mp3"],
       ⟨"", none, [("/out/a.mp3", "audio-a")]⟩⟩ := by decide

/-- C8: the download task closure built by `NewFileDownloader` returns a
nil error on every execution path — success, Content-Length fallback
(whether the fallback succeeds or fails) and plain failure alike. -/
theorem NewFileDownloader_task_returns_nil (url path filename : String)
    (got : GotOutcome) (dl : DLOutcome) (now : String) (fs : FS) :
    (NewFileDownloader url path filename got dl now fs).1 = none := by
  cases got <;> cases dl <;> rfl

/-- C9: `CheckIfNeedFixBrokenDownloadFile` returns `true` exactly when
some line of the ledger file is non-empty after trimming carriage returns
and newlines, and it leaves the file system unchanged. -/
theorem CheckIfNeedFixBrokenDownloadFile_iff_pending (fs : FS) :
    ((CheckIfNeedFixBrokenDownloadFile fs).1 = true ↔
      ∃ l ∈ goReadLines fs.ledger, goTrimCRLF l ≠ "") ∧
    (CheckIfNeedFixBrokenDownloadFile fs).2 = fs := by
  refine ⟨?_, rfl⟩
  simp only [CheckIfNeedFixBrokenDownloadFile, decide_eq_true_eq, pendingLines]
  rw [Ne, List.length_eq_zero, ← Ne, Ne, List.filter_eq_nil_iff]
  push_neg
  constructor
  · rintro ⟨l, hl, hp⟩
    exact ⟨l, hl, (string_ne_empty_iff _).2 (by simpa using hp)⟩
  · rintro ⟨l, hl, hp⟩
    exact ⟨l, hl, by simpa using (string_ne_empty_iff _).1 hp⟩

/-- C10: when the destination file is absent and creating its parent
directory fails, `NewFixFileDownloader` returns `(nil, nil)`, discarding
every record accumulated in `resultLines`; the replay loop then sees an
empty accumulator, marks the current entry as `lastSuccessIndex`, and
breaks out of its remaining retries with the accumulator reset to empty. -/
theorem NewFixFileDownloader_mkdir_failure_resolves_entry
    (url storePath : String) (resultLines : List String) (dl : DLOutcome) (now : String)
    (orc : FixOracle) (index : Nat) (line : String) (fuel i : Nat) (lastSuccess : Int)
    (container : List String) (fs : FS)
    (hfile : fs.read storePath = none)
    (hlen : ¬ (goSplit line '|').length < 3)
    (hmk : (orc.call index i).mkdirOk = false)
    (hpath : fs.read ((goSplit line '|').getD 1 "") = none)
    (hne : (index : Int) ≠ lastSuccess) :
    NewFixFileDownloader url storePath resultLines false dl now fs = ([], none, fs) ∧
    fixInner orc index line (fuel + 1) i lastSuccess container fs =
      .ok ((index : Int), [], fs) := by
  have ha : ∀ (u p : String) (rl : List String) (d : DLOutcome) (t : String),
      fs.read p = none → NewFixFileDownloader u p rl false d t fs = ([], none, fs) := by
    intro u p rl d t hp
    simp [NewFixFileDownloader, hp]
  refine ⟨ha url storePath resultLines dl now hfile, ?_⟩
  simp only [fixInner, if_neg hne, if_neg hlen]
  rw [hmk, ha _ _ _ _ _ hpath]
  simp

/-- C10 witness: a concrete replay step with a failing `os.MkdirAll` and a
previously accumulated failure record, which is discarded while the entry
is marked resolved. -/
theorem NewFixFileDownloader_mkdir_failure_resolves_entry_witness :
    (NewFixFileDownloader "http://x/a" "/out/a" ["old record"] false (.doErr "e") "T"
      fsEmpty = ([], none, fsEmpty)) ∧
    fixInner orcMkdirFail 0 "t|/out/a|http://x/a" 3 0 (-1) ["old record"] fsEmpty =
      .ok (0, [], fsEmpty) :=
  NewFixFileDownloader_mkdir_failure_resolves_entry "http://x/a" "/out/a"
    ["old record"] (.doErr "e") "T" orcMkdirFail 0 "t|/out/a|http://x/a" 2 0 (-1)
    ["old record"] fsEmpty (by decide) (by decide) (by decide) (by decide) (by decide)

end Asmr
